import Mathlib

/-!
# Verification of the application-session quorum / allocation protocol

This development embeds the application-session quorum and allocation
model of the `yellow-sdk-tutorials` repository.  The repository's demo
scripts (`scripts/rideshare_demo.ts`, `scripts/app_sessions/
app_session_two_signers.ts`) configure the model (participant lists,
weights, quorum threshold, allocation vectors) and submit state updates,
while the quorum evaluation, allocation-ledger validation and session
state machine are enforced by the external settlement backend.  Where a
definition embeds code present in the repository, its doc comment names
the source location; where the deciding code lives only in the external
backend, the definition is modelled from the specification and its doc
comment says so explicitly.

Conventions: participant identities and asset names are `String`s;
amounts are `Int` (the sources use integer strings in the asset's minor
unit, e.g. `'10000000'` for 10 USDC with 6 decimals); machine numbers
never overflow in the demo's ranges, so `Nat`/`Int` model them directly.
-/

/-- Decidable equality for `Except`, needed to evaluate the model's
fallible functions on concrete inputs. -/
instance {e a : Type} [DecidableEq e] [DecidableEq a] :
    DecidableEq (Except e a) := fun x y =>
  match x, y with
  | Except.ok u, Except.ok v =>
    if h : u = v then Decidable.isTrue (h ▸ rfl)
    else Decidable.isFalse (fun hc => h (Except.ok.inj hc))
  | Except.ok _, Except.error _ => Decidable.isFalse (fun hc => Except.noConfusion hc)
  | Except.error _, Except.ok _ => Decidable.isFalse (fun hc => Except.noConfusion hc)
  | Except.error u, Except.error v =>
    if h : u = v then Decidable.isTrue (h ▸ rfl)
    else Decidable.isFalse (fun hc => h (Except.error.inj hc))

namespace YellowSdk

/-- Constant from `scripts/rideshare_demo.ts` line 53: the rider's voting
weight. -/
def RIDER_WEIGHT : Nat := 40

/-- Constant from `scripts/rideshare_demo.ts` line 54: the driver's voting
weight. -/
def DRIVER_WEIGHT : Nat := 40

/-- Constant from `scripts/rideshare_demo.ts` line 55: the app's voting
weight. -/
def APP_WEIGHT : Nat := 20

/-- Constant from `scripts/rideshare_demo.ts` line 56: the quorum
threshold (percent). -/
def QUORUM_THRESHOLD : Nat := 60

/-- Constant from `scripts/rideshare_demo.ts` line 45: the ride fare,
10 USDC in minor units (the source string `'10000000'`). -/
def RIDE_FARE : Int := 10000000

/-- Constant from `scripts/rideshare_demo.ts` line 50: the challenge
period in seconds. -/
def CHALLENGE_PERIOD : Nat := 86400

/-- Embeds the `AppDefinition` interface of `scripts/rideshare_demo.ts`
lines 81–88: a participant list with a parallel weight list, a quorum
threshold, a challenge period and a nonce. -/
structure AppDefinition where
  protocol : String
  participants : List String
  weights : List Nat
  quorum : Nat
  challenge : Nat
  nonce : Nat
deriving Repr, DecidableEq

/-- Embeds the `Allocation` interface of `scripts/rideshare_demo.ts`
lines 90–94: one (participant, asset, amount) entry of an allocation
vector.  The source stores `amount` as a decimal string in the asset's
minor unit; it is modelled as an integer. -/
structure Allocation where
  participant : String
  asset : String
  amount : Int
deriving Repr, DecidableEq

/-- The pairing of a definition's participant list with its parallel
weight list, as the demo's `AppDefinition` lays the two lists out. -/
def participantWeights (d : AppDefinition) : List (String × Nat) :=
  d.participants.zip d.weights

/-- Modelled from the spec: `totalWeight(definition)`, the sum of all
participant weights (§4.1 Weight Resolver). -/
def totalWeight (d : AppDefinition) : Nat :=
  d.weights.sum

/-- Modelled from the spec: errors of the Quorum Evaluator (§4.2, §7). -/
inductive QuorumError where
  | unknownParticipant
deriving Repr, DecidableEq

/-- Modelled from the spec: `weightOf(definition, participantId)` (§4.1),
failing with `UnknownParticipant` when the identity is not in the
definition's participant list. -/
def weightOf (d : AppDefinition) (pid : String) : Except QuorumError Nat :=
  match (participantWeights d).find? (fun p => p.1 == pid) with
  | some p => Except.ok p.2
  | none => Except.error QuorumError.unknownParticipant

/-- Total-function weight lookup used inside quorum evaluation; it is
only consulted for identities already checked to be known. -/
def weightLookup (d : AppDefinition) (pid : String) : Nat :=
  (((participantWeights d).find? (fun p => p.1 == pid)).map (fun p => p.2)).getD 0

/-- Sum of the weights of the distinct identities of a signer list: each
identity is counted once however often it occurs. -/
def distinctWeightSum (d : AppDefinition) (signers : List String) : Nat :=
  ((signers.dedup).map (weightLookup d)).sum

/-- Modelled from the spec: the result record of `evaluate` (§4.2).
`requiredWeight` is kept in the spec's integer-scaled unit
(threshold percentage × total weight), the comparison the spec fixes as
authoritative to avoid floating point. -/
structure EvalResult where
  approved : Bool
  achievedWeight : Nat
  requiredWeight : Nat
deriving Repr, DecidableEq

/-- Modelled from the spec: the Quorum Evaluator's
`evaluate(definition, signerIds)` (§4.2).  Duplicate signers are counted
once; an unknown signer identity fails with `UnknownParticipant`;
approval compares scaled integers:
`achievedWeight * 100 ≥ quorumThreshold * totalWeight`. -/
def evaluate (d : AppDefinition) (signers : List String) :
    Except QuorumError EvalResult :=
  if (signers.dedup).all (fun s => (participantWeights d).any (fun p => p.1 == s)) then
    Except.ok
      { approved := decide (100 * distinctWeightSum d signers ≥ d.quorum * totalWeight d)
        achievedWeight := distinctWeightSum d signers
        requiredWeight := d.quorum * totalWeight d }
  else
    Except.error QuorumError.unknownParticipant

/-- The ride-share demo's application definition
(`scripts/rideshare_demo.ts` lines 384–395): three participants with
weights 40/40/20, quorum threshold 60, challenge period 86400, nonce
taken from the clock.  The three addresses are derived from seed phrases
at run time and are therefore parameters. -/
def rideshareAppDefinition (rider driver app : String) (nonce : Nat) :
    AppDefinition :=
  { protocol := "rideshare-app-v1"
    participants := [rider, driver, app]
    weights := [RIDER_WEIGHT, DRIVER_WEIGHT, APP_WEIGHT]
    quorum := QUORUM_THRESHOLD
    challenge := CHALLENGE_PERIOD
    nonce := nonce }

/-- The demo definition at three fixed distinct identity strings, used
for concrete evaluation of the demo's 40/40/20, threshold-60 setup. -/
def demoDef : AppDefinition :=
  rideshareAppDefinition "0xRider" "0xDriver" "0xApp" 1

/-- The ride-share demo's initial allocation vector
(`scripts/rideshare_demo.ts` lines 398–402): the rider holds the full
fare, driver and app hold zero. -/
def initialAllocations (rider driver app : String) : List Allocation :=
  [ { participant := rider, asset := "usdc", amount := RIDE_FARE }
  , { participant := driver, asset := "usdc", amount := 0 }
  , { participant := app, asset := "usdc", amount := 0 } ]

/-- The ride-share demo's payment allocation vector
(`scripts/rideshare_demo.ts` lines 534–538): the driver holds the full
fare, rider and app hold zero. -/
def newAllocations (rider driver app : String) : List Allocation :=
  [ { participant := rider, asset := "usdc", amount := 0 }
  , { participant := driver, asset := "usdc", amount := RIDE_FARE }
  , { participant := app, asset := "usdc", amount := 0 } ]

/-! ## Allocation Ledger (modelled from the spec, §4.3) -/

/-- Modelled from the spec: the error taxonomy of the Allocation Ledger
(§4.3, §7). -/
inductive LedgerError where
  | conservationError
  | negativeAllocation
  | insufficientAllocation
deriving Repr, DecidableEq

/-- The distinct assets present in either of two allocation vectors. -/
def assetsOf (cur prop : List Allocation) : List String :=
  ((cur ++ prop).map (fun x => x.asset)).dedup

/-- The sum of a vector's amounts for one asset across all participants. -/
def assetSum (v : List Allocation) (a : String) : Int :=
  ((v.filter (fun x => x.asset == a)).map (fun x => x.amount)).sum

/-- Modelled from the spec: the Allocation Ledger's `propose` for the
`operate` transition kind (§4.3).  Per the spec's scenario "amount -1 →
rejected with `NegativeAllocation` regardless of conservation",
non-negativity is checked first; conservation then requires, for every
asset present in either vector, equal sums.  The `deposit`/`withdraw`
branches of §4.3 are not modelled: no claim exercises them, and the
backend step below accepts them after the quorum and version checks,
which only enlarges the accepted set and is never relied on. -/
def proposeOperate (cur prop : List Allocation) :
    Except LedgerError (List Allocation) :=
  if prop.any (fun x => x.amount < 0) then
    Except.error LedgerError.negativeAllocation
  else if (assetsOf cur prop).all (fun a => assetSum cur a == assetSum prop a) then
    Except.ok prop
  else
    Except.error LedgerError.conservationError

/-! ## Session state machine and settlement backend (modelled from the
spec, §4.4, §5, §7) -/

/-- The transition kinds of a session (`scripts/rideshare_demo.ts`
line 582 declares `'operate' | 'deposit' | 'withdraw'`; `close` is the
closing proposal of §4.4). -/
inductive TransitionKind where
  | operate
  | deposit
  | withdraw
  | close
deriving Repr, DecidableEq

/-- A candidate transition as built by an initiating participant
(§4.4 step 1): target version, proposed vector, kind, and the collected
signer identities. -/
structure Transition where
  version : Nat
  proposedVector : List Allocation
  kind : TransitionKind
  signers : List String
deriving Repr, DecidableEq

/-- The session lifecycle states of §4.4. -/
inductive SessionStatus where
  | created
  | active
  | closing
  | closed
deriving Repr, DecidableEq

/-- A session as held by the settlement backend: definition, current
version, current vector, lifecycle status (§3). -/
structure Session where
  definition : AppDefinition
  currentVersion : Nat
  currentVector : List Allocation
  status : SessionStatus
deriving Repr, DecidableEq

/-- Modelled from the spec: the error taxonomy surfaced by the backend
(§7).  `backendRejected` is the opaque catch-all, used here for
transitions against a session that is not active. -/
inductive ProtocolError where
  | versionConflict
  | quorumNotReached
  | unknownParticipant
  | negativeAllocation
  | conservationError
  | backendRejected
deriving Repr, DecidableEq

/-- Modelled from the spec: the settlement backend's acceptance decision
for one submitted transition (§4.4 step 5, §5, §7).  The version check
comes first — a candidate whose version is not exactly
`currentVersion + 1` always fails with `VersionConflict` (§5, §7) — then
the lifecycle check (only an active session accepts transitions; a
closed session accepts none, §3), then quorum (§4.2), then ledger
validation for `operate` (§4.3).  The challenge window of a `close` is
collapsed to an immediate move to `closed` (real time is out of scope
for this model). -/
def step (s : Session) (t : Transition) : Except ProtocolError Session :=
  if t.version != s.currentVersion + 1 then
    Except.error ProtocolError.versionConflict
  else if s.status != SessionStatus.active then
    Except.error ProtocolError.backendRejected
  else
    match evaluate s.definition t.signers with
    | Except.error _ => Except.error ProtocolError.unknownParticipant
    | Except.ok r =>
      if !r.approved then
        Except.error ProtocolError.quorumNotReached
      else
        match t.kind with
        | TransitionKind.operate =>
          match proposeOperate s.currentVector t.proposedVector with
          | Except.error LedgerError.negativeAllocation =>
            Except.error ProtocolError.negativeAllocation
          | Except.error _ => Except.error ProtocolError.conservationError
          | Except.ok v =>
            Except.ok { s with currentVersion := t.version, currentVector := v }
        | TransitionKind.close =>
          Except.ok { s with currentVersion := t.version,
                             currentVector := t.proposedVector,
                             status := SessionStatus.closed }
        | _ =>
          Except.ok { s with currentVersion := t.version,
                             currentVector := t.proposedVector }

/-- Modelled from the spec: running a sequence of submitted transitions.
A rejected transition leaves the session at its prior version and vector
(§4.4 failure semantics, §7). -/
def run (s : Session) : List Transition → Session
  | [] => s
  | t :: ts =>
    match step s t with
    | Except.ok s' => run s' ts
    | Except.error _ => run s ts

/-! ## Local state handling of the ride-share demo
(`scripts/rideshare_demo.ts`) -/

/-- The demo's module-level mutable state that the claims concern
(`scripts/rideshare_demo.ts` lines 101–102): the locally cached
allocation vector and session version. -/
structure LocalState where
  currentAllocations : List Allocation
  currentVersion : Nat
deriving Repr, DecidableEq

/-- The settlement backend's disposition of a submitted state update:
the acknowledgment says whether the transition was accepted or
rejected. -/
inductive BackendVerdict where
  | accepted
  | rejected
deriving Repr, DecidableEq

/-- Embeds the local-state effect of `submitAppState`
(`scripts/rideshare_demo.ts` lines 580–636): after sending the state
update message, the function executes `currentVersion = version`
(line 634) unconditionally.  The `verdict` parameter is the backend's
disposition of the update; the source never consults it — there is no
branch on acceptance or rejection — so the result does not depend on
it. -/
def submitAppStateLocal (st : LocalState) (version : Nat)
    (verdict : BackendVerdict) : LocalState :=
  match verdict with
  | _ => { st with currentVersion := version }

/-- Embeds the local-state effect of `updateAllocationsForPayment`
(`scripts/rideshare_demo.ts` lines 521–575): it submits an `operate`
update at `currentVersion + 1` moving the full fare to the driver, then
executes `currentAllocations = newAllocations` (line 572) —
unconditionally, whatever the backend's verdict. -/
def updateAllocationsForPaymentLocal (st : LocalState)
    (rider driver app : String) (verdict : BackendVerdict) : LocalState :=
  let st' := submitAppStateLocal st (st.currentVersion + 1) verdict
  { st' with currentAllocations := newAllocations rider driver app }

/-! ## CLI argument validation of the deposit and resize scripts -/

/-- `parseUnits(amount, decimals)` of the scripts: scales a decimal
amount into the asset's minor unit.  CLI amounts are exact decimals,
modelled as rationals. -/
def parseUnits (amount : Rat) (decimals : Nat) : Rat :=
  amount * (10 : Rat) ^ decimals

/-- Embeds the `.check` callback of `scripts/deposit_to_custody.ts`
lines 24–29: a non-positive `--amount` throws
`Amount must be a positive number`. -/
def depositArgvCheck (amount : Rat) : Except String Unit :=
  if amount ≤ 0 then Except.error "Amount must be a positive number"
  else Except.ok ()

/-- The externally visible actions of the deposit script's `main`, in
program order (`scripts/deposit_to_custody.ts` lines 34–88): the USDC
balance read, then the custody deposit of `parseUnits(amount, 6)`
units. -/
inductive DepositEffect where
  | balanceRead
  | deposit (units : Rat)
deriving Repr, DecidableEq

/-- Embeds the deposit script end to end
(`scripts/deposit_to_custody.ts`): `yargs.parseSync()` runs the
`.check` callback before `main`, so a failing check yields the error and
no effect; otherwise `main` reads the balance and deposits
`parseUnits(amount, 6)` units (lines 53–80). -/
def depositScript (amount : Rat) : Except String (List DepositEffect) :=
  match depositArgvCheck amount with
  | Except.error e => Except.error e
  | Except.ok _ =>
    Except.ok [DepositEffect.balanceRead, DepositEffect.deposit (parseUnits amount 6)]

/-- Embeds the `.check` callback of `scripts/resize_channel.ts`
lines 52–63: the channel id must start with `0x`; at least one of
`--resize`/`--allocate` must be provided; and the zero check fires only
when both equal zero — in the source `argv.resize === 0 &&
argv.allocate === 0`, where an absent option is `undefined`, which is
not `=== 0`.  JavaScript's `startsWith('0x')` is modelled on the
character list (equality of the first two characters with `0x`). -/
def resizeArgvCheck (channelId : String) (resize allocate : Option Rat) :
    Except String Unit :=
  if ¬ (channelId.data.take 2 = "0x".data) then
    Except.error "Channel ID must be a hex string starting with 0x"
  else if resize = none ∧ allocate = none then
    Except.error "At least one of --resize or --allocate must be provided"
  else if resize = some 0 ∧ allocate = some 0 then
    Except.error "Amounts cannot both be zero"
  else Except.ok ()

/-- The resize request the script sends
(`scripts/resize_channel.ts` lines 183–188): the channel id plus the
optional resize/allocate amounts in minor units; an absent option is
omitted from the message (spread of an empty object). -/
structure ResizeRequest where
  channel_id : String
  resize_amount : Option Rat
  allocate_amount : Option Rat
deriving Repr, DecidableEq

/-- Embeds the resize script up to the sending of the resize request
(`scripts/resize_channel.ts`): argument validation at parse time, then
conversion of the provided amounts with `parseUnits(·, 6)` (lines
105–110) into the request of lines 183–188. -/
def resizeScript (channelId : String) (resize allocate : Option Rat) :
    Except String ResizeRequest :=
  match resizeArgvCheck channelId resize allocate with
  | Except.error e => Except.error e
  | Except.ok _ =>
    Except.ok
      { channel_id := channelId
        resize_amount := resize.map (fun x => parseUnits x 6)
        allocate_amount := allocate.map (fun x => parseUnits x 6) }

end YellowSdk

namespace YellowSdk

/-- Helper: `List.all` is invariant under permutation of the list. -/
theorem perm_all_congr {α : Type} (p : α → Bool) {l₁ l₂ : List α}
    (h : List.Perm l₁ l₂) : l₁.all p = l₂.all p := by
  rw [Bool.eq_iff_iff, List.all_eq_true, List.all_eq_true]
  constructor
  · intro hp x hx
    exact hp x (h.mem_iff.mpr hx)
  · intro hp x hx
    exact hp x (h.mem_iff.mp hx)

/-- The ride-share demo's session as held by the backend after creation:
version 0, the initial allocation vector, active. -/
def demoSession : Session :=
  { definition := demoDef
    currentVersion := 0
    currentVector := initialAllocations "0xRider" "0xDriver" "0xApp"
    status := SessionStatus.active }

/-- The demo's payment transition: version 1, fare moved to the driver,
operate kind, signed by rider and app (60% quorum). -/
def demoPaymentTransition : Transition :=
  { version := 1
    proposedVector := newAllocations "0xRider" "0xDriver" "0xApp"
    kind := TransitionKind.operate
    signers := ["0xRider", "0xApp"] }

/-- A stale candidate: version 0 against a session at version 0. -/
def demoStaleTransition : Transition :=
  { version := 0
    proposedVector := newAllocations "0xRider" "0xDriver" "0xApp"
    kind := TransitionKind.operate
    signers := ["0xRider", "0xApp"] }

/-- The demo session after the accepted payment transition: version 1,
fare with the driver. -/
def demoSessionAfterPayment : Session :=
  { definition := demoDef
    currentVersion := 1
    currentVector := newAllocations "0xRider" "0xDriver" "0xApp"
    status := SessionStatus.active }

/-- C1: for every session definition and signer set on which `evaluate`
succeeds, the result is approved exactly when the sum of the weights of
the distinct signer identities, scaled by 100, is at least the quorum
threshold times the total weight; in the demo's 40/40/20 definition with
threshold 60, any two of the three participants approve and a single
40-weight signer does not. -/
theorem quorum_approved_iff_scaled_threshold :
    (∀ (d : AppDefinition) (S : List String) (r : EvalResult),
        evaluate d S = Except.ok r →
        (r.approved = true ↔
          100 * distinctWeightSum d S ≥ d.quorum * totalWeight d))
    ∧ evaluate demoDef ["0xRider", "0xDriver"] =
        Except.ok { approved := true, achievedWeight := 80, requiredWeight := 6000 }
    ∧ evaluate demoDef ["0xRider", "0xApp"] =
        Except.ok { approved := true, achievedWeight := 60, requiredWeight := 6000 }
    ∧ evaluate demoDef ["0xDriver", "0xApp"] =
        Except.ok { approved := true, achievedWeight := 60, requiredWeight := 6000 }
    ∧ evaluate demoDef ["0xRider"] =
        Except.ok { approved := false, achievedWeight := 40, requiredWeight := 6000 }
    ∧ evaluate demoDef ["0xDriver"] =
        Except.ok { approved := false, achievedWeight := 40, requiredWeight := 6000 } := by
  refine ⟨?_, by decide, by decide, by decide, by decide, by decide⟩
  intro d S r h
  unfold evaluate at h
  split at h
  · injection h with h'
    subst h'
    simp
  · cases h

/-- Witness for C1: the iff instantiated at the demo definition with the
rider and app signing. -/
theorem quorum_approved_iff_scaled_threshold_witness :
    evaluate demoDef ["0xRider", "0xApp"] =
      Except.ok { approved := true, achievedWeight := 60, requiredWeight := 6000 }
    ∧ (({ approved := true, achievedWeight := 60, requiredWeight := 6000 } :
          EvalResult).approved = true ↔
        100 * distinctWeightSum demoDef ["0xRider", "0xApp"] ≥
          demoDef.quorum * totalWeight demoDef) :=
  ⟨by decide,
   quorum_approved_iff_scaled_threshold.1 demoDef ["0xRider", "0xApp"] _ (by decide)⟩

/-- C5: quorum evaluation counts a duplicated signer identity exactly
once: `evaluate d S` equals `evaluate d S.dedup`, and in the demo a
second signature from the rider adds no weight (achieved weight stays
40, not approved). -/
theorem quorum_duplicate_signer_counted_once :
    (∀ (d : AppDefinition) (S : List String), evaluate d S = evaluate d S.dedup)
    ∧ evaluate demoDef ["0xRider", "0xRider"] = evaluate demoDef ["0xRider"]
    ∧ evaluate demoDef ["0xRider", "0xRider"] =
        Except.ok { approved := false, achievedWeight := 40, requiredWeight := 6000 } := by
  refine ⟨?_, by decide, by decide⟩
  intro d S
  simp only [evaluate, distinctWeightSum, List.dedup_idem]

/-- C8: quorum evaluation is order-independent — for any two
permutations of the same signer list, `evaluate` returns identical
results (approved, achieved weight and required weight alike). -/
theorem quorum_order_independent :
    ∀ (d : AppDefinition) (S₁ S₂ : List String),
      List.Perm S₁ S₂ → evaluate d S₁ = evaluate d S₂ := by
  intro d S₁ S₂ h
  have hd := h.dedup
  have hsum : distinctWeightSum d S₁ = distinctWeightSum d S₂ :=
    (hd.map (weightLookup d)).sum_eq
  unfold evaluate
  rw [perm_all_congr _ hd, hsum]

/-- Witness for C8: the two orders in which the rider and the app can
sign evaluate identically. -/
theorem quorum_order_independent_witness :
    List.Perm ["0xRider", "0xApp"] ["0xApp", "0xRider"]
    ∧ evaluate demoDef ["0xRider", "0xApp"] = evaluate demoDef ["0xApp", "0xRider"] :=
  ⟨by decide, quorum_order_independent demoDef _ _ (by decide)⟩

/-- Counterexample to C2 as stated: a proposed vector whose `usdc` sum
differs from the current vector's but which contains a negative amount
is rejected with `NegativeAllocation`, not `ConservationError` — the
non-negativity check fires first, as the spec's scenario 6 requires. -/
theorem propose_conservation_counterexample :
    "usdc" ∈ assetsOf [Allocation.mk "0xA" "usdc" 1] [Allocation.mk "0xA" "usdc" (-1)]
    ∧ assetSum [Allocation.mk "0xA" "usdc" 1] "usdc" ≠
        assetSum [Allocation.mk "0xA" "usdc" (-1)] "usdc"
    ∧ proposeOperate [Allocation.mk "0xA" "usdc" 1] [Allocation.mk "0xA" "usdc" (-1)] ≠
        Except.error LedgerError.conservationError
    ∧ proposeOperate [Allocation.mk "0xA" "usdc" 1] [Allocation.mk "0xA" "usdc" (-1)] =
        Except.error LedgerError.negativeAllocation := by decide

/-- C2 as amended: for operate transitions on a proposed vector with no
negative amount, `propose` rejects with `ConservationError` exactly when
some asset's total changes, and accepts when every asset's total is
conserved; the demo's payment update (full fare from rider to driver)
conserves the `usdc` total and is accepted. -/
theorem propose_conservation_amended :
    (∀ cur prop : List Allocation,
        (∀ x ∈ prop, 0 ≤ x.amount) →
        ((∃ a ∈ assetsOf cur prop, assetSum cur a ≠ assetSum prop a) →
            proposeOperate cur prop = Except.error LedgerError.conservationError)
          ∧ ((∀ a ∈ assetsOf cur prop, assetSum cur a = assetSum prop a) →
            proposeOperate cur prop = Except.ok prop))
    ∧ proposeOperate (initialAllocations "0xRider" "0xDriver" "0xApp")
        (newAllocations "0xRider" "0xDriver" "0xApp") =
      Except.ok (newAllocations "0xRider" "0xDriver" "0xApp") := by
  refine ⟨?_, by decide⟩
  intro cur prop hnn
  have hany : (prop.any fun x => decide (x.amount < 0)) = false := by
    rw [List.any_eq_false]
    intro x hx
    simpa using hnn x hx
  constructor
  · rintro ⟨a, ha, hne⟩
    have hall : ((assetsOf cur prop).all fun a => assetSum cur a == assetSum prop a) = false := by
      rw [List.all_eq_false]
      exact ⟨a, ha, by simpa using hne⟩
    simp [proposeOperate, hany, hall]
  · intro hsums
    have hall : ((assetsOf cur prop).all fun a => assetSum cur a == assetSum prop a) = true := by
      rw [List.all_eq_true]
      intro a ha
      simpa using hsums a ha
    simp [proposeOperate, hany, hall]

/-- Witness for C2 (amended): the demo's conserving payment update is
accepted, and the spec's 10-vs-9 scenario is rejected with
`ConservationError`. -/
theorem propose_conservation_amended_witness :
    ((∀ x ∈ newAllocations "0xRider" "0xDriver" "0xApp", 0 ≤ x.amount)
      ∧ (∀ a ∈ assetsOf (initialAllocations "0xRider" "0xDriver" "0xApp")
            (newAllocations "0xRider" "0xDriver" "0xApp"),
          assetSum (initialAllocations "0xRider" "0xDriver" "0xApp") a =
            assetSum (newAllocations "0xRider" "0xDriver" "0xApp") a)
      ∧ proposeOperate (initialAllocations "0xRider" "0xDriver" "0xApp")
          (newAllocations "0xRider" "0xDriver" "0xApp") =
        Except.ok (newAllocations "0xRider" "0xDriver" "0xApp"))
    ∧ ((∀ x ∈ [Allocation.mk "0xA" "usdc" 5, Allocation.mk "0xB" "usdc" 4], 0 ≤ x.amount)
      ∧ (∃ a ∈ assetsOf [Allocation.mk "0xA" "usdc" 10, Allocation.mk "0xB" "usdc" 0]
            [Allocation.mk "0xA" "usdc" 5, Allocation.mk "0xB" "usdc" 4],
          assetSum [Allocation.mk "0xA" "usdc" 10, Allocation.mk "0xB" "usdc" 0] a ≠
            assetSum [Allocation.mk "0xA" "usdc" 5, Allocation.mk "0xB" "usdc" 4] a)
      ∧ proposeOperate [Allocation.mk "0xA" "usdc" 10, Allocation.mk "0xB" "usdc" 0]
          [Allocation.mk "0xA" "usdc" 5, Allocation.mk "0xB" "usdc" 4] =
        Except.error LedgerError.conservationError) :=
  ⟨⟨by decide, by decide,
    ((propose_conservation_amended.1 _ _ (by decide)).2 (by decide))⟩,
   ⟨by decide, by decide,
    ((propose_conservation_amended.1 _ _ (by decide)).1 (by decide))⟩⟩

/-- C6: any proposed operate vector containing a negative amount is
rejected with `NegativeAllocation`, regardless of conservation — in the
concrete instance the `usdc` total is conserved (10 = 11 - 1) and the
proposal is still rejected, never clamped or accepted. -/
theorem propose_rejects_negative_amount :
    (∀ cur prop : List Allocation,
        (∃ x ∈ prop, x.amount < 0) →
        proposeOperate cur prop = Except.error LedgerError.negativeAllocation)
    ∧ proposeOperate [Allocation.mk "0xA" "usdc" 10, Allocation.mk "0xB" "usdc" 0]
        [Allocation.mk "0xA" "usdc" 11, Allocation.mk "0xB" "usdc" (-1)] =
      Except.error LedgerError.negativeAllocation := by
  refine ⟨?_, by decide⟩
  rintro cur prop ⟨x, hx, hneg⟩
  have hany : (prop.any fun x => decide (x.amount < 0)) = true :=
    List.any_eq_true.mpr ⟨x, hx, decide_eq_true hneg⟩
  simp [proposeOperate, hany]

/-- Witness for C6: a conserving vector holding a `-1` amount is
rejected with `NegativeAllocation`. -/
theorem propose_rejects_negative_amount_witness :
    (∃ x ∈ [Allocation.mk "0xA" "usdc" 11, Allocation.mk "0xB" "usdc" (-1)], x.amount < 0)
    ∧ proposeOperate [Allocation.mk "0xA" "usdc" 10, Allocation.mk "0xB" "usdc" 0]
        [Allocation.mk "0xA" "usdc" 11, Allocation.mk "0xB" "usdc" (-1)] =
      Except.error LedgerError.negativeAllocation :=
  ⟨by decide, propose_rejects_negative_amount.1 _ _ (by decide)⟩

/-- C3: a candidate transition whose version is not exactly
`currentVersion + 1` is always rejected with `VersionConflict` and never
accepted, and every accepted transition increments the session version
by exactly 1. -/
theorem version_gate_and_increment :
    ∀ (s : Session) (t : Transition),
      (t.version ≠ s.currentVersion + 1 →
        step s t = Except.error ProtocolError.versionConflict)
      ∧ (∀ s' : Session, step s t = Except.ok s' →
          s'.currentVersion = s.currentVersion + 1) := by
  intro s t
  constructor
  · intro hv
    unfold step
    rw [if_pos (bne_iff_ne.mpr hv)]
  · intro s' h
    unfold step at h
    split at h
    · exact Except.noConfusion h
    next hv =>
      have hveq : t.version = s.currentVersion + 1 := by simpa using hv
      split at h
      · exact Except.noConfusion h
      · split at h
        · exact Except.noConfusion h
        · split at h
          · exact Except.noConfusion h
          · split at h
            · split at h
              · exact Except.noConfusion h
              · exact Except.noConfusion h
              · injection h with h2
                subst h2
                simpa using hveq
            · injection h with h2
              subst h2
              simpa using hveq
            · injection h with h2
              subst h2
              simpa using hveq

/-- Witness for C3: a stale version-0 candidate against the version-0
demo session is rejected with `VersionConflict`; the accepted payment
transition advances the session to version 1 = 0 + 1. -/
theorem version_gate_and_increment_witness :
    (demoStaleTransition.version ≠ demoSession.currentVersion + 1
      ∧ step demoSession demoStaleTransition = Except.error ProtocolError.versionConflict)
    ∧ (step demoSession demoPaymentTransition = Except.ok demoSessionAfterPayment
      ∧ demoSessionAfterPayment.currentVersion = demoSession.currentVersion + 1) :=
  ⟨⟨by decide, (version_gate_and_increment demoSession demoStaleTransition).1 (by decide)⟩,
   ⟨by decide, (version_gate_and_increment demoSession demoPaymentTransition).2 _ (by decide)⟩⟩

/-- C7: a session in the terminal `Closed` state accepts no further
transition of any kind — every `step` from it is rejected — and running
any sequence of submitted transitions leaves it exactly as it is. -/
theorem closed_session_terminal :
    ∀ s : Session, s.status = SessionStatus.closed →
      (∀ (t : Transition) (s' : Session), step s t ≠ Except.ok s')
      ∧ (∀ ts : List Transition, run s ts = s) := by
  intro s hs
  have hstep : ∀ t : Transition, ∃ e, step s t = Except.error e := by
    intro t
    unfold step
    by_cases hv : (t.version != s.currentVersion + 1) = true
    · rw [if_pos hv]
      exact ⟨_, rfl⟩
    · have hc : (s.status != SessionStatus.active) = true := by
        rw [hs]
        rfl
      rw [if_neg hv, if_pos hc]
      exact ⟨_, rfl⟩
  refine ⟨?_, ?_⟩
  · intro t s' hok
    obtain ⟨e, he⟩ := hstep t
    rw [he] at hok
    exact Except.noConfusion hok
  · intro ts
    induction ts with
    | nil => rfl
    | cons t ts ih =>
      obtain ⟨e, he⟩ := hstep t
      simp only [run, he]
      exact ih

/-- The demo session after a close: terminal state at version 5. -/
def closedSession : Session :=
  { definition := demoDef
    currentVersion := 5
    currentVector := newAllocations "0xRider" "0xDriver" "0xApp"
    status := SessionStatus.closed }

/-- Witness for C7: the closed demo session rejects the payment
transition and is unchanged by a two-transition run (an operate and a
close at the next version). -/
theorem closed_session_terminal_witness :
    closedSession.status = SessionStatus.closed
    ∧ (∀ s' : Session, step closedSession demoPaymentTransition ≠ Except.ok s')
    ∧ run closedSession
        [ { version := 6, proposedVector := [], kind := TransitionKind.operate,
            signers := ["0xRider", "0xApp"] },
          { version := 6, proposedVector := [], kind := TransitionKind.close,
            signers := ["0xRider", "0xDriver"] } ] = closedSession :=
  ⟨rfl,
   fun s' => (closed_session_terminal closedSession rfl).1 demoPaymentTransition s',
   (closed_session_terminal closedSession rfl).2 _⟩

/-- The demo's local state right after session creation
(`scripts/rideshare_demo.ts` lines 298, 398–402): version 0, the
initial allocation vector. -/
def demoLocalState : LocalState :=
  { currentAllocations := initialAllocations "0xRider" "0xDriver" "0xApp"
    currentVersion := 0 }

/-- Counterexample to C4 as stated: when the backend rejects the demo's
payment update, the locally cached version still moves from 0 to 1 and
the cached allocation vector is still replaced — the local cache is not
left unchanged on rejection. -/
theorem local_cache_rejected_counterexample :
    (updateAllocationsForPaymentLocal demoLocalState "0xRider" "0xDriver" "0xApp"
        BackendVerdict.rejected).currentVersion ≠ demoLocalState.currentVersion
    ∧ (updateAllocationsForPaymentLocal demoLocalState "0xRider" "0xDriver" "0xApp"
        BackendVerdict.rejected).currentAllocations ≠ demoLocalState.currentAllocations
    ∧ (submitAppStateLocal demoLocalState 1 BackendVerdict.rejected).currentVersion ≠
        demoLocalState.currentVersion := by decide

/-- C4 as amended: the demo updates its locally cached version
immediately after submitting a state update, and the payment step also
replaces the cached allocation vector — both unconditionally, with
accepted and rejected submissions producing identical local state. -/
theorem local_cache_updated_unconditionally :
    ∀ (st : LocalState) (v : Nat) (verdict : BackendVerdict),
      submitAppStateLocal st v verdict = { st with currentVersion := v }
      ∧ (∀ rider driver app : String,
          updateAllocationsForPaymentLocal st rider driver app verdict =
            { currentAllocations := newAllocations rider driver app
              currentVersion := st.currentVersion + 1 }) := by
  intro st v verdict
  cases verdict
  · exact ⟨rfl, fun _ _ _ => rfl⟩
  · exact ⟨rfl, fun _ _ _ => rfl⟩

/-- C9: the deposit script rejects every non-positive `--amount` with
the error `Amount must be a positive number` before any balance read or
deposit is attempted, and the deposit effect is reached only for
strictly positive amounts (as `parseUnits(amount, 6)` units, after the
balance read). -/
theorem deposit_rejects_nonpositive_amount :
    ∀ amount : Rat,
      (amount ≤ 0 →
        depositScript amount = Except.error "Amount must be a positive number")
      ∧ (∀ effs : List DepositEffect, depositScript amount = Except.ok effs →
          0 < amount ∧
            effs = [DepositEffect.balanceRead,
                    DepositEffect.deposit (parseUnits amount 6)]) := by
  intro amount
  constructor
  · intro hle
    unfold depositScript depositArgvCheck
    rw [if_pos hle]
  · intro effs h
    by_cases hle : amount ≤ 0
    · unfold depositScript depositArgvCheck at h
      rw [if_pos hle] at h
      exact Except.noConfusion h
    · refine ⟨lt_of_not_le hle, ?_⟩
      unfold depositScript depositArgvCheck at h
      rw [if_neg hle] at h
      exact (Except.ok.inj h).symm

/-- Witness for C9: amounts 0 and -1 are rejected with the validation
error; amount 1 reaches the balance read and the deposit of
1000000 minor units. -/
theorem deposit_rejects_nonpositive_amount_witness :
    ((0 : Rat) ≤ 0
      ∧ depositScript 0 = Except.error "Amount must be a positive number")
    ∧ ((-1 : Rat) ≤ 0
      ∧ depositScript (-1) = Except.error "Amount must be a positive number")
    ∧ (depositScript 1 =
        Except.ok [DepositEffect.balanceRead, DepositEffect.deposit (parseUnits 1 6)]
      ∧ (0 : Rat) < 1
      ∧ parseUnits 1 6 = 1000000) :=
  ⟨⟨by decide, (deposit_rejects_nonpositive_amount 0).1 (by decide)⟩,
   ⟨by decide, (deposit_rejects_nonpositive_amount (-1)).1 (by decide)⟩,
   ⟨rfl, ((deposit_rejects_nonpositive_amount 1).2 _ rfl).1, by norm_num [parseUnits]⟩⟩

/-- C10: the resize script's zero check fires exactly when both
`--resize` and `--allocate` are provided and exactly zero (given a
well-formed channel id); `--resize 0` with no `--allocate`, and
`--allocate 0` with no `--resize`, pass validation and produce a
zero-amount resize request. -/
theorem resize_zero_amount_validation :
    (∀ (cid : String) (r a : Option Rat),
        resizeArgvCheck cid r a = Except.error "Amounts cannot both be zero" ↔
          (cid.data.take 2 = "0x".data ∧ r = some 0 ∧ a = some 0))
    ∧ resizeScript "0xabc123" (some 0) none =
        Except.ok { channel_id := "0xabc123"
                    resize_amount := some (parseUnits 0 6)
                    allocate_amount := none }
    ∧ resizeScript "0xabc123" none (some 0) =
        Except.ok { channel_id := "0xabc123"
                    resize_amount := none
                    allocate_amount := some (parseUnits 0 6) }
    ∧ parseUnits 0 6 = 0
    ∧ resizeArgvCheck "0xabc123" (some 0) (some 0) =
        Except.error "Amounts cannot both be zero" := by
  refine ⟨?_, rfl, rfl, by simp [parseUnits], by decide⟩
  intro cid r a
  unfold resizeArgvCheck
  by_cases h1 : cid.data.take 2 = "0x".data
  · rw [if_neg (not_not_intro h1)]
    by_cases h2 : r = none ∧ a = none
    · rw [if_pos h2]
      constructor
      · intro he
        exact absurd (Except.error.inj he) (by decide)
      · rintro ⟨-, hr, -⟩
        rw [hr] at h2
        exact absurd h2.1 (by simp)
    · rw [if_neg h2]
      by_cases h3 : r = some 0 ∧ a = some 0
      · rw [if_pos h3]
        exact iff_of_true rfl ⟨h1, h3.1, h3.2⟩
      · rw [if_neg h3]
        constructor
        · intro he
          exact Except.noConfusion he
        · rintro ⟨-, hr, ha⟩
          exact absurd ⟨hr, ha⟩ h3
  · rw [if_pos h1]
    constructor
    · intro he
      exact absurd (Except.error.inj he) (by decide)
    · rintro ⟨hpre, -⟩
      exact absurd hpre h1

end YellowSdk
